import Mathlib

/-!
Shallow embedding of the fraud-detection and risk-scoring engine of the
repository (src/src/domain/services.py, src/src/domain/entities.py,
src/src/domain/value_objects.py, src/src/infrastructure/neo4j_repositories.py).

Modelling conventions:
* Timestamps are integers counting minutes (the code compares Neo4j datetimes;
  only differences in minutes/hours/days matter to the analysed functions).
  The implicit wall clock `datetime.now(timezone.utc)` is passed explicitly as
  a `now : Int` argument, as spec section 9 prescribes for determinism.
* Python floats (amounts, scores, confidences) are modelled as rationals `ℚ`;
  every arithmetic expression the claims touch is exact in both systems.
* Cypher queries are translated relation-by-relation: a `MATCH` over a
  relationship pattern becomes filtering/flat-mapping over the stored lists;
  `ORDER BY` clauses are omitted where only presentation order is affected
  (noted at each definition); `LIMIT` clauses become `List.take`.
-/

/-- Account status enumeration (entities.py, `AccountStatus`). -/
inductive AccountStatus where
  | active
  | suspended
  | closed
deriving DecidableEq, Repr

/-- KYC status enumeration (entities.py, `KYCStatus`). -/
inductive KYCStatus where
  | verified
  | pending
  | failed
deriving DecidableEq, Repr

/-- Fraud-ring lifecycle states (entities.py, `FraudRingStatus`). -/
inductive FraudRingStatus where
  | investigating
  | confirmed
  | false_positive
  | resolved
deriving DecidableEq, Repr

/-- Bank account entity (entities.py, `Account`); only the fields the analysed
functions read are carried. -/
structure Account where
  account_id : String
  status : AccountStatus
  created_date : Int
  risk_score : ℚ
deriving DecidableEq, Repr

/-- Customer entity (entities.py, `Customer`); only the fields the analysed
functions read are carried. -/
structure Customer where
  customer_id : String
  customer_since : Int
  kyc_status : KYCStatus
deriving DecidableEq, Repr

/-- Transaction entity (entities.py, `Transaction`); only the fields the
analysed functions read are carried.  `from_account_id`/`to_account_id` are
`none` exactly when the corresponding `DEBITED_FROM`/`CREDITED_TO`
relationship is absent in the graph. -/
structure Transaction where
  transaction_id : String
  amount : ℚ
  timestamp : Int
  is_flagged : Bool
  from_account_id : Option String
  to_account_id : Option String
deriving DecidableEq, Repr

/-- Risk-score value object (value_objects.py, `RiskScore`).  The pydantic
default `calculated_at = datetime.utcnow()` is the construction-time reference
clock, carried explicitly. -/
structure RiskScore where
  score : ℚ
  factors : List String
  calculated_at : Int
deriving DecidableEq, Repr

/-- Transaction-pattern value object (value_objects.py, `TransactionPattern`).
`detected_at` carries the construction-time reference clock. -/
structure TransactionPattern where
  pattern_type : String
  confidence : ℚ
  evidence : List String
  detected_at : Int
deriving DecidableEq, Repr

/-- Fraud-ring entity (entities.py, `FraudRing`). -/
structure FraudRing where
  ring_id : String
  detected_date : Int
  confidence_score : ℚ
  status : FraudRingStatus
  total_amount : ℚ
  member_count : Nat
  pattern_type : String
  description : String
deriving DecidableEq, Repr

/-- The graph store as seen by account/transaction queries: the Account and
Transaction nodes with their relationships (carried inline on each
transaction). -/
structure GraphStore where
  accounts : List Account
  transactions : List Transaction
deriving DecidableEq, Repr

/-- Number of `DEBITED_FROM`/`CREDITED_TO` relationships between transaction
`t` and account `accId`: the Cypher pattern
`(t)-[:DEBITED_FROM|CREDITED_TO]->(a)` yields one row per such relationship
(neo4j_repositories.py lines 270, 349). -/
def touches (t : Transaction) (accId : String) : Nat :=
  (if t.from_account_id = some accId then 1 else 0) +
  (if t.to_account_id = some accId then 1 else 0)

/-- `Neo4jTransactionRepository.count_transactions_in_timeframe`
(neo4j_repositories.py lines 345-356): counts relationship matches between
transactions with `timestamp ≥ now - minutes` and the given account. -/
def count_transactions_in_timeframe (store : GraphStore) (account_id : String)
    (minutes : Int) (now : Int) : Nat :=
  ((store.transactions.filter (fun t => decide (now - minutes ≤ t.timestamp))).map
    (fun t => touches t account_id)).sum

/-- `Neo4jTransactionRepository.find_by_account`
(neo4j_repositories.py lines 266-285): the transactions touching the account,
once per touching relationship, restricted to the optional date range.  The
query's `ORDER BY t.timestamp DESC` only affects presentation order and is
omitted; the callers analysed here only count over the result. -/
def find_by_account (store : GraphStore) (account_id : String)
    (start_date : Option Int) (end_date : Option Int) : List Transaction :=
  (store.transactions.flatMap (fun t => List.replicate (touches t account_id) t)).filter
    (fun t => (start_date.all fun s => decide (s ≤ t.timestamp)) &&
              (end_date.all fun e => decide (t.timestamp ≤ e)))

/-- Factor 1 of `calculate_account_risk` (services.py lines 32-39): the score
added for transaction velocity in the trailing hour. -/
def velocity_contribution (velocity_count : Nat) : ℚ :=
  if velocity_count > 10 then min 30 ((velocity_count : ℚ) * 2) else 0

/-- Factor 2 of `calculate_account_risk` (services.py lines 41-50): the score
added for flagged transactions in the trailing seven days. -/
def flagged_contribution (flagged_count : Nat) : ℚ :=
  if flagged_count > 0 then min 25 ((flagged_count : ℚ) * 5) else 0

/-- Factor 3 of `calculate_account_risk` (services.py lines 52-57): the score
added for account age below thirty days. -/
def age_contribution (account_age_days : Int) : ℚ :=
  if account_age_days < 30 then 15 - (account_age_days : ℚ) * (1 / 2) else 0

/-- Factor 4 of `calculate_account_risk` (services.py lines 59-63): the score
added for a suspended account. -/
def status_contribution (status : AccountStatus) : ℚ :=
  if status = AccountStatus.suspended then 20 else 0

/-- Factor 5 of `calculate_account_risk` (services.py lines 65-70): the score
added for high-value transactions in the trailing seven days. -/
def high_value_contribution (high_value_count : Nat) : ℚ :=
  if high_value_count > 0 then min 10 ((high_value_count : ℚ) * 2) else 0

/-- `RiskScoringService.calculate_account_risk` (services.py lines 27-72),
with the repository state and the reference clock explicit and the two reads
threaded in source order.  Reads are Cypher `MATCH` queries and leave the
store unchanged, reflected by returning the store alongside the result. -/
def calculate_account_risk_st (store : GraphStore) (now : Int) (account : Account) :
    RiskScore × GraphStore :=
  let velocity_count := count_transactions_in_timeframe store account.account_id 60 now
  let recent_transactions := find_by_account store account.account_id
    (some (now - 7 * 24 * 60)) none
  let flagged_count := (recent_transactions.filter (·.is_flagged)).length
  let account_age_days := (now - account.created_date).fdiv (24 * 60)
  let high_value_count := (recent_transactions.filter (fun t => decide (t.amount > 10000))).length
  let score : ℚ :=
    velocity_contribution velocity_count +
    flagged_contribution flagged_count +
    age_contribution account_age_days +
    status_contribution account.status +
    high_value_contribution high_value_count
  let factors : List String :=
    (if velocity_count > 10 then
      ["High transaction velocity: " ++ toString velocity_count ++ " in last hour"] else []) ++
    (if flagged_count > 0 then ["Flagged transactions: " ++ toString flagged_count] else []) ++
    (if account_age_days < 30 then
      ["New account: " ++ toString account_age_days ++ " days old"] else []) ++
    (if account.status = AccountStatus.suspended then ["Account suspended"] else []) ++
    (if high_value_count > 0 then
      ["High-value transactions: " ++ toString high_value_count] else [])
  ({ score := min 100 score, factors := factors, calculated_at := now }, store)

/-- The risk score computed by `calculate_account_risk` (result component). -/
def calculate_account_risk (store : GraphStore) (now : Int) (account : Account) : RiskScore :=
  (calculate_account_risk_st store now account).1

/-- Age of a customer in whole days at the reference clock, as computed by
`(datetime.now(timezone.utc) - customer.customer_since).days` (services.py
line 98); Python's `timedelta.days` floors. -/
def customer_age_days (now : Int) (customer : Customer) : Int :=
  (now - customer.customer_since).fdiv (24 * 60)

/-- Stands in for Python's one-decimal rendering `f"{avg:.1f}"` of the average
account risk (services.py line 95); no analysed claim inspects this string. -/
def format_avg_risk (q : ℚ) : String :=
  toString (⌊q * 10⌋ : Int)

/-- `RiskScoringService.calculate_customer_risk` (services.py lines 74-110)
with the reference clock explicit.  The `if accounts:` guard of the Python
code becomes the `accounts.isEmpty` test: the average-account-risk factor is
computed only for a non-empty account list. -/
def calculate_customer_risk (now : Int) (customer : Customer)
    (accounts : List Account) : RiskScore :=
  let avg_account_risk : ℚ :=
    (accounts.map (·.risk_score)).sum / (accounts.length : ℚ)
  let age_days := customer_age_days now customer
  let score : ℚ :=
    (if customer.kyc_status = KYCStatus.failed then 25
     else if customer.kyc_status = KYCStatus.pending then 15 else 0) +
    (if accounts.isEmpty then 0 else (avg_account_risk / 100) * 30) +
    (if age_days < 60 then 15 - (age_days : ℚ) * (1 / 4) else 0) +
    (if accounts.length > 5 then min 10 (((accounts.length : ℚ) - 5) * 2) else 0)
  let factors : List String :=
    (if customer.kyc_status = KYCStatus.failed then ["KYC verification failed"]
     else if customer.kyc_status = KYCStatus.pending then ["KYC verification pending"]
     else []) ++
    (if accounts.isEmpty then []
     else if avg_account_risk > 50 then
       ["High average account risk: " ++ format_avg_risk avg_account_risk] else []) ++
    (if age_days < 60 then ["New customer: " ++ toString age_days ++ " days"] else []) ++
    (if accounts.length > 5 then ["Multiple accounts: " ++ toString accounts.length] else [])
  { score := min 100 score, factors := factors, calculated_at := now }

/-- `Neo4jTransactionRepository.find_circular_transactions`
(neo4j_repositories.py lines 301-343).  The Cypher pattern is hard-coded to a
three-hop chain `start ←t1→ a2 ←t2→ a3 ←t3→ start` of flagged transactions
with the three accounts pairwise distinct; `max_cycle_length` is received but
never used by the query.  One row is produced per matching assignment of
`(t1, t2, t3)` (so a triangle matches once per rotation), `LIMIT 100` keeps
the first hundred rows, and the Python loop keeps rows of length
`≥ min_cycle_length`.  Matched relationships force the four endpoint
account references to be present (`isSome`). -/
def find_circular_transactions (store : GraphStore)
    (min_cycle_length : Nat) (max_cycle_length : Nat) : List (List Transaction) :=
  let rows :=
    store.transactions.flatMap (fun t1 =>
      store.transactions.flatMap (fun t2 =>
        store.transactions.filterMap (fun t3 =>
          if t1.is_flagged ∧ t2.is_flagged ∧ t3.is_flagged ∧
             t1.from_account_id.isSome ∧ t1.to_account_id.isSome ∧
             t2.to_account_id.isSome ∧
             t1.to_account_id = t2.from_account_id ∧
             t2.to_account_id = t3.from_account_id ∧
             t3.to_account_id = t1.from_account_id ∧
             t1.from_account_id ≠ t1.to_account_id ∧
             t1.from_account_id ≠ t2.to_account_id ∧
             t1.to_account_id ≠ t2.to_account_id
          then some [t1, t2, t3] else none)))
  (rows.take 100).filter (fun cycle => decide (min_cycle_length ≤ cycle.length))

/-- `FraudDetectionService.detect_circular_flow` (services.py lines 123-142):
maps each returned cycle to a pattern with fixed confidence `0.8` and the
ordered `(transaction_id, amount)` evidence strings.  The repository is called
with `max_cycle_length = 8`. -/
def detect_circular_flow (store : GraphStore) (now : Int)
    (min_cycle_length : Nat := 3) : List TransactionPattern :=
  (find_circular_transactions store min_cycle_length 8).map (fun cycle =>
    { pattern_type := "circular_flow"
      confidence := 4 / 5
      evidence := cycle.map (fun t =>
        "Transaction " ++ t.transaction_id ++ ": " ++ toString t.amount)
      detected_at := now })

/-- One aggregation row of the fan-out query: source account, distinct
recipient count, summed amount. -/
structure FanOutRow where
  account_id : String
  recipient_count : Nat
  total_amount : ℚ
deriving DecidableEq, Repr

/-- Transactions that match the fan-out pattern
`(from_account)<-[:DEBITED_FROM]-(t)-[:CREDITED_TO]->(to_account)` within the
trailing window (both relationships must exist). -/
def fan_out_window (store : GraphStore) (now : Int) (timeframe_hours : Int) :
    List Transaction :=
  store.transactions.filter (fun t =>
    t.from_account_id.isSome && t.to_account_id.isSome &&
    decide (now - timeframe_hours * 60 ≤ t.timestamp))

/-- The distinct source accounts of the windowed fan-out transactions: the
grouping keys of the Cypher `WITH from_account, ...` aggregation. -/
def fan_out_sources (store : GraphStore) (now : Int) (timeframe_hours : Int) :
    List String :=
  ((fan_out_window store now timeframe_hours).filterMap (·.from_account_id)).dedup

/-- Distinct-recipient count of one source account within the window:
`count(DISTINCT to_account)`. -/
def fan_out_recipient_count (store : GraphStore) (now : Int)
    (timeframe_hours : Int) (src : String) : Nat :=
  ((((fan_out_window store now timeframe_hours).filter
      (fun t => t.from_account_id = some src)).filterMap (·.to_account_id)).dedup).length

/-- Summed amount of one source account's windowed transactions:
`sum(t.amount)`. -/
def fan_out_total_amount (store : GraphStore) (now : Int)
    (timeframe_hours : Int) (src : String) : ℚ :=
  (((fan_out_window store now timeframe_hours).filter
      (fun t => t.from_account_id = some src)).map (·.amount)).sum

/-- `Neo4jGraphQueryRepository.detect_fan_out_pattern`
(neo4j_repositories.py lines 379-393): one aggregation row per source account
whose distinct-recipient count within the trailing window reaches
`min_recipients`.  The query's `ORDER BY recipient_count DESC` only affects
presentation order and is omitted; the caller maps each row independently. -/
def detect_fan_out_pattern (store : GraphStore) (now : Int)
    (min_recipients : Nat) (timeframe_hours : Int) : List FanOutRow :=
  (fan_out_sources store now timeframe_hours).filterMap (fun src =>
    let rc := fan_out_recipient_count store now timeframe_hours src
    if min_recipients ≤ rc then
      some { account_id := src, recipient_count := rc
             total_amount := fan_out_total_amount store now timeframe_hours src }
    else none)

/-- `FraudDetectionService.detect_fan_out` (services.py lines 144-163): maps
each aggregation row to a pattern with confidence
`min(0.9, recipient_count / 10)`; the repository is called with a 24-hour
window. -/
def detect_fan_out (store : GraphStore) (now : Int)
    (min_recipients : Nat := 5) : List TransactionPattern :=
  (detect_fan_out_pattern store now min_recipients 24).map (fun result =>
    { pattern_type := "fan_out"
      confidence := min (9 / 10) ((result.recipient_count : ℚ) / 10)
      evidence :=
        ["Account " ++ result.account_id ++ " sent to " ++
           toString result.recipient_count ++ " accounts",
         "Total amount: " ++ toString result.total_amount]
      detected_at := now })

/-- Neo4j's `duration.between(x, y).hours` component accessor.
`duration.between` normalises the elapsed time into month, day and
sub-day-second groups, each carrying the sign of the duration, and the
`hours` accessor reads the whole hours of the sub-day seconds group only —
whole elapsed days never enter, so the value always lies in −23..23.  With
timestamps in minutes, that is the whole-hour part of the sub-day remainder
of the difference, negated when `y` precedes `x`. -/
def hours_between (x y : Int) : Int :=
  if 0 ≤ y - x then ((y - x).toNat % (24 * 60) / 60 : Nat)
  else -(((x - y).toNat % (24 * 60) / 60 : Nat))

/-- The `(t_in, t_out)` match rows of the mule query for one account: every
pair of an inbound and an outbound transaction of the account passing the
`WHERE duration.between(t_in.timestamp, t_out.timestamp).hours <= $max_hold_time_hours`
clause.  Because the `hours` component never exceeds 23, the clause does not
bind for any `max_hold_time_hours ≥ 23` (the service calls with 48): every
inbound/outbound pair matches, whatever the gap or order.  The Cypher `MATCH`
of two separate patterns produces the full cartesian product of such pairs,
so the subsequent `sum` aggregations range over pairs, not over individual
transactions. -/
def mule_rows (store : GraphStore) (max_hold_time_hours : Int)
    (a : Account) : List (Transaction × Transaction) :=
  store.transactions.flatMap (fun t_in =>
    store.transactions.filterMap (fun t_out =>
      if t_in.to_account_id = some a.account_id ∧
         t_out.from_account_id = some a.account_id ∧
         hours_between t_in.timestamp t_out.timestamp ≤ max_hold_time_hours
      then some (t_in, t_out) else none))

/-- `Neo4jGraphQueryRepository.detect_mule_accounts`
(neo4j_repositories.py lines 411-429): an account is returned when it has at
least one `(t_in, t_out)` match row and the pairwise-summed totals satisfy
`total_in ≥ min_throughput` and `|total_in - total_out| / total_in < 0.1`.
The hold-time restriction is vacuous at the service's `max_hold_time_hours =
48`, since the `hours` duration component is at most 23. -/
def detect_mule_accounts (store : GraphStore) (min_throughput : ℚ)
    (max_hold_time_hours : Int) : List Account :=
  store.accounts.filter (fun a =>
    let rows := mule_rows store max_hold_time_hours a
    let total_in := (rows.map (fun p => p.1.amount)).sum
    let total_out := (rows.map (fun p => p.2.amount)).sum
    !rows.isEmpty && decide (total_in ≥ min_throughput) &&
      decide (|total_in - total_out| / total_in < 1 / 10))

/-- A `MEMBER_OF` / `USED_IN` relationship to a fraud ring:
`(ring_id, entity_id, role)`. -/
structure RingLink where
  ring_id : String
  entity_id : String
  role : String
deriving DecidableEq, Repr

/-- The graph store as seen by `Neo4jFraudRingRepository`: the FraudRing nodes,
the Customer/Account node keys (a Cypher `MATCH` on a missing node produces no
row, so links are only created for existing nodes), and the membership
relationships. -/
structure FraudRingStore where
  rings : List FraudRing
  customer_ids : List String
  account_ids : List String
  customer_links : List RingLink
  account_links : List RingLink
deriving DecidableEq, Repr

/-- `Neo4jFraudRingRepository.find_by_id` (neo4j_repositories.py lines
709-717): the ring node with the given key, if any. -/
def FraudRingStore.find_by_id (s : FraudRingStore) (ring_id : String) :
    Option FraudRing :=
  s.rings.find? (fun r => decide (r.ring_id = ring_id))

/-- `Neo4jFraudRingRepository.save` (neo4j_repositories.py lines 682-707):
`MERGE` on the `ring_id` key then `SET` of every field — an upsert that
overwrites the stored node with the given entity. -/
def FraudRingStore.save (s : FraudRingStore) (ring : FraudRing) : FraudRingStore :=
  if s.rings.any (fun r => decide (r.ring_id = ring.ring_id)) then
    { s with rings := s.rings.map (fun r =>
        if r.ring_id = ring.ring_id then ring else r) }
  else
    { s with rings := s.rings ++ [ring] }

/-- Upsert of a membership relationship keyed on `(ring_id, entity_id)`:
`MERGE (x)-[rel]->(r) SET rel.role = $role`. -/
def upsertLink (links : List RingLink) (l : RingLink) : List RingLink :=
  if links.any (fun x => decide (x.ring_id = l.ring_id ∧ x.entity_id = l.entity_id)) then
    links.map (fun x =>
      if x.ring_id = l.ring_id ∧ x.entity_id = l.entity_id then l else x)
  else links ++ [l]

/-- Distinct customers linked to a ring by a `MEMBER_OF` relationship:
`count(DISTINCT member)` over `(r)<-[:MEMBER_OF]-(member:Customer)`. -/
def distinct_linked_customers (s : FraudRingStore) (ring_id : String) : Nat :=
  (((s.customer_links.filter (fun l => decide (l.ring_id = ring_id))).map
      (·.entity_id)).dedup).length

/-- `Neo4jFraudRingRepository.link_customer_to_ring` (neo4j_repositories.py
lines 731-744): when both the customer and the ring node exist, upsert the
`MEMBER_OF` relationship and set the ring's `member_count` to the distinct
linked-customer count. -/
def link_customer_to_ring (s : FraudRingStore) (ring_id : String)
    (customer_id : String) (role : String) : FraudRingStore :=
  if s.customer_ids.contains customer_id &&
     s.rings.any (fun r => decide (r.ring_id = ring_id)) then
    let newLinks := upsertLink s.customer_links ⟨ring_id, customer_id, role⟩
    let s1 := { s with customer_links := newLinks }
    { s1 with rings := s1.rings.map (fun r =>
        if r.ring_id = ring_id then
          { r with member_count := distinct_linked_customers s1 ring_id } else r) }
  else s

/-- `Neo4jFraudRingRepository.link_account_to_ring` (neo4j_repositories.py
lines 746-756): when both the account and the ring node exist, upsert the
`USED_IN` relationship.  The ring's `member_count` is not touched. -/
def link_account_to_ring (s : FraudRingStore) (ring_id : String)
    (account_id : String) (role : String) : FraudRingStore :=
  if s.account_ids.contains account_id &&
     s.rings.any (fun r => decide (r.ring_id = ring_id)) then
    { s with account_links := upsertLink s.account_links ⟨ring_id, account_id, role⟩ }
  else s

/-- `FraudRingAnalysisService.create_fraud_ring_from_pattern` (services.py
lines 209-230).  The pydantic `ring_id`/`detected_date` defaults
(`uuid.uuid4()` / `datetime.utcnow()`) are passed explicitly as `fresh_id` /
`now`; the remaining defaulted fields (`status = INVESTIGATING`,
`total_amount = 0`) are filled as in entities.py.  Every related entity is
linked as an account with role `"participant"`. -/
def create_fraud_ring_from_pattern (s : FraudRingStore)
    (pat : TransactionPattern) (related_entities : List String)
    (fresh_id : String) (now : Int) : FraudRing × FraudRingStore :=
  let ring : FraudRing :=
    { ring_id := fresh_id
      detected_date := now
      confidence_score := pat.confidence
      status := FraudRingStatus.investigating
      total_amount := 0
      member_count := related_entities.length
      pattern_type := pat.pattern_type
      description := "Detected " ++ pat.pattern_type ++ " pattern" }
  let s1 := s.save ring
  let s2 := related_entities.foldl (fun st entity_id =>
    link_account_to_ring st ring.ring_id entity_id "participant") s1
  (ring, s2)

/-- Stands in for Python's rendering `f"{datetime.now(timezone.utc)}"` of the
note timestamp (services.py line 239); no analysed claim inspects it. -/
def timestamp_string (now : Int) : String :=
  toString now

/-- `FraudRingAnalysisService.update_ring_status` (services.py lines 232-241):
look the ring up; when absent return `none` and touch nothing; when present
set the status to the requested value (unconditionally — no transition
validation), append the timestamped note to the description when `notes` is
non-empty, and save. -/
def update_ring_status (s : FraudRingStore) (ring_id : String)
    (status : FraudRingStatus) (notes : String) (now : Int) :
    Option FraudRing × FraudRingStore :=
  match s.find_by_id ring_id with
  | none => (none, s)
  | some ring =>
      let ring' : FraudRing :=
        { ring with
            status := status
            description :=
              if notes ≠ "" then
                ring.description ++ "\n" ++ timestamp_string now ++ ": " ++ notes
              else ring.description }
      (some ring', s.save ring')

/-- Claim-side predicate for C8, stated from the spec's words (refinement
comparison with `detect_mule_accounts`): inbound total ≥ minThroughput, every
outbound occurs within maxHoldHours of real elapsed time after an inbound
(timestamps are in minutes, so within `max_hold_time_hours * 60` minutes),
and the relative retention `|inflow − outflow| / inflow` is strictly below
0.10. -/
def spec_mule_flagged (store : GraphStore) (min_throughput : ℚ)
    (max_hold_time_hours : Int) (a : Account) : Bool :=
  let ins := store.transactions.filter (fun t => t.to_account_id = some a.account_id)
  let outs := store.transactions.filter (fun t => t.from_account_id = some a.account_id)
  let inflow := (ins.map (·.amount)).sum
  let outflow := (outs.map (·.amount)).sum
  !ins.isEmpty && !outs.isEmpty &&
  outs.all (fun o => ins.any (fun i =>
    decide (0 ≤ o.timestamp - i.timestamp) &&
    decide (o.timestamp - i.timestamp ≤ max_hold_time_hours * 60))) &&
  decide (inflow ≥ min_throughput) && decide (|inflow - outflow| / inflow < 1 / 10)

/-- Fixture: empty fraud-ring store. -/
def emptyRingStore : FraudRingStore :=
  { rings := [], customer_ids := [], account_ids := []
    customer_links := [], account_links := [] }

/-- Fixture: account used by the velocity example. -/
def acct11 : Account :=
  { account_id := "A1", status := AccountStatus.active, created_date := 0, risk_score := 0 }

/-- Fixture: one of eleven unflagged low-value transactions sent by `acct11`
within the trailing hour of reference time 86400 (sixty days after account
creation). -/
def txn11 (i : Nat) : Transaction :=
  { transaction_id := "T" ++ toString i, amount := 100, timestamp := 86390
    is_flagged := false, from_account_id := some "A1", to_account_id := some "B1" }

/-- Fixture: store with exactly eleven trailing-hour transactions of `acct11`. -/
def store11 : GraphStore :=
  { accounts := [acct11], transactions := (List.range 11).map txn11 }

/-- Fixture: a flagged transfer between two named accounts. -/
def flaggedTxn (id a b : String) : Transaction :=
  { transaction_id := id, amount := 100, timestamp := 0
    is_flagged := true, from_account_id := some a, to_account_id := some b }

/-- Fixture: a single directed triangle `A → B → C → A` of flagged
transactions. -/
def storeTri : GraphStore :=
  { accounts := []
    transactions := [flaggedTxn "T1" "A" "B", flaggedTxn "T2" "B" "C",
                     flaggedTxn "T3" "C" "A"] }

/-- Fixture: a single directed four-cycle `A → B → C → D → A` of flagged
transactions. -/
def storeQuad : GraphStore :=
  { accounts := []
    transactions := [flaggedTxn "Q1" "A" "B", flaggedTxn "Q2" "B" "C",
                     flaggedTxn "Q3" "C" "D", flaggedTxn "Q4" "D" "A"] }

/-- Fixture: the pattern returned for `storeTri` when the match starts at
account `A`. -/
def patTri : TransactionPattern :=
  { pattern_type := "circular_flow", confidence := 4 / 5
    evidence := ["Transaction T1: 100", "Transaction T2: 100", "Transaction T3: 100"]
    detected_at := 0 }

/-- Fixture: transaction `i` of a fan-out burst from source `S` to distinct
recipients. -/
def fanTxn (i : Nat) : Transaction :=
  { transaction_id := "F" ++ toString i, amount := 100, timestamp := 0
    is_flagged := false, from_account_id := some "S"
    to_account_id := some ("R" ++ toString i) }

/-- Fixture: source `S` sends to exactly five distinct recipients. -/
def storeF5 : GraphStore :=
  { accounts := [], transactions := (List.range 5).map fanTxn }

/-- Fixture: source `S` sends to exactly twelve distinct recipients. -/
def storeF12 : GraphStore :=
  { accounts := [], transactions := (List.range 12).map fanTxn }

/-- Fixture: candidate mule account. -/
def accM : Account :=
  { account_id := "M", status := AccountStatus.active, created_date := 0, risk_score := 0 }

/-- Fixture: a transfer with explicit endpoints, amount and timestamp. -/
def xfer (id : String) (from_id to_id : Option String) (amt : ℚ) (ts : Int) : Transaction :=
  { transaction_id := id, amount := amt, timestamp := ts
    is_flagged := false, from_account_id := from_id, to_account_id := to_id }

/-- Fixture: `M` receives one $12,000 inbound and forwards $11,900 split over
two outbound transfers ten hours later — the claim's flagging conditions hold
of the plain inbound/outbound totals. -/
def storePair : GraphStore :=
  { accounts := [accM]
    transactions :=
      [xfer "IN1" (some "X") (some "M") 12000 0,
       xfer "OUT1" (some "M") (some "Y") 5950 600,
       xfer "OUT2" (some "M") (some "Y") 5950 601] }

/-- Fixture: `M` receives $12,000 and forwards $11,900 in one transfer ten
hours later (the spec's flagged example). -/
def storeEx1 : GraphStore :=
  { accounts := [accM]
    transactions :=
      [xfer "IN1" (some "X") (some "M") 12000 0,
       xfer "OUT1" (some "M") (some "Y") 11900 600] }

/-- Fixture: `M` receives $12,000 but forwards only $2,000 (the spec's
unflagged example). -/
def storeEx2 : GraphStore :=
  { accounts := [accM]
    transactions :=
      [xfer "IN1" (some "X") (some "M") 12000 0,
       xfer "OUT1" (some "M") (some "Y") 2000 600] }

/-- Fixture: `M` receives $12,000 and forwards $11,900 only sixty hours
later — outside any 48-hour hold window of real elapsed time, yet the `hours`
duration component of the gap is 60 − 2·24 = 12. -/
def storeEx3 : GraphStore :=
  { accounts := [accM]
    transactions :=
      [xfer "IN1" (some "X") (some "M") 12000 0,
       xfer "OUT1" (some "M") (some "Y") 11900 3600] }

/-- Fixture: ring store whose only account node is `ACC1`. -/
def ringStoreAcc : FraudRingStore :=
  { rings := [], customer_ids := [], account_ids := ["ACC1"]
    customer_links := [], account_links := [] }

/-- Fixture: a detected pattern used to seed a ring. -/
def pat1 : TransactionPattern :=
  { pattern_type := "circular_flow", confidence := 4 / 5, evidence := [], detected_at := 0 }

/-- Fixture: a ring already resolved. -/
def ringR1 : FraudRing :=
  { ring_id := "R1", detected_date := 0, confidence_score := 4 / 5
    status := FraudRingStatus.resolved, total_amount := 0, member_count := 0
    pattern_type := "circular_flow", description := "d" }

/-- Fixture: ring store holding only the resolved ring `R1`. -/
def ringStoreResolved : FraudRingStore :=
  { rings := [ringR1], customer_ids := [], account_ids := []
    customer_links := [], account_links := [] }

/-- Fixture: customer with failed KYC who joined at the reference epoch. -/
def custNew : Customer :=
  { customer_id := "C1", customer_since := 0, kyc_status := KYCStatus.failed }

/-- Fixture: customer with failed KYC who joined long before the reference
time 100000 (69 whole days earlier). -/
def custOld : Customer :=
  { customer_id := "C2", customer_since := 0, kyc_status := KYCStatus.failed }

/-- C4: `calculate_account_risk` neither writes to the store nor depends on
anything but the store, the reference clock and the account: against a fixed
state, a repeated call returns a `RiskScore` identical in every field
(score, factors, `calculated_at`), and the store after each call is the store
before it. -/
theorem C4_idempotent_pure (store : GraphStore) (now : Int) (account : Account) :
    (calculate_account_risk_st store now account).2 = store ∧
    (calculate_account_risk_st (calculate_account_risk_st store now account).2 now account).1 =
      (calculate_account_risk_st store now account).1 :=
  ⟨rfl, rfl⟩

/-- C3: `update_ring_status` on a ring id absent from the store returns the
NotFound result (`none`) and the unchanged store — no ring is created,
modified or saved. -/
theorem C3_unknown_ring_no_mutation (s : FraudRingStore) (ring_id : String)
    (status : FraudRingStatus) (notes : String) (now : Int)
    (h : s.find_by_id ring_id = none) :
    update_ring_status s ring_id status notes now = (none, s) := by
  unfold update_ring_status
  rw [h]

/-- Witness for C3 at the empty store and ring id `R9`. -/
theorem C3_witness :
    emptyRingStore.find_by_id "R9" = none ∧
    update_ring_status emptyRingStore "R9" FraudRingStatus.confirmed "note" 5 =
      (none, emptyRingStore) :=
  ⟨rfl, C3_unknown_ring_no_mutation emptyRingStore "R9" FraudRingStatus.confirmed "note" 5 rfl⟩

/-- C5: the velocity factor of `calculate_account_risk` contributes
`min(30, 2·count)` to the (clamped) score sum when the trailing-60-minute
transaction count exceeds 10 and contributes 0 otherwise; a count of 11
contributes exactly 22, and an account whose only risk signal is 11
trailing-hour transactions scores exactly 22. -/
theorem C5_velocity_factor (store : GraphStore) (now : Int) (account : Account) :
    (calculate_account_risk store now account).score =
      min 100
        (velocity_contribution (count_transactions_in_timeframe store account.account_id 60 now) +
         flagged_contribution
           ((find_by_account store account.account_id (some (now - 7 * 24 * 60)) none).filter
             (·.is_flagged)).length +
         age_contribution ((now - account.created_date).fdiv (24 * 60)) +
         status_contribution account.status +
         high_value_contribution
           ((find_by_account store account.account_id (some (now - 7 * 24 * 60)) none).filter
             (fun t => decide (t.amount > 10000))).length) ∧
    (∀ c : Nat, velocity_contribution c = if 10 < c then min 30 (2 * (c : ℚ)) else 0) ∧
    velocity_contribution 11 = 22 ∧
    count_transactions_in_timeframe store11 "A1" 60 86400 = 11 ∧
    (calculate_account_risk store11 86400 acct11).score = 22 := by
  refine ⟨rfl, ?_, by norm_num [velocity_contribution], by decide, ?_⟩
  · intro c
    simp [velocity_contribution, mul_comm]
  · simp [calculate_account_risk, calculate_account_risk_st, store11, acct11, txn11,
      count_transactions_in_timeframe, find_by_account, touches, List.range_succ,
      velocity_contribution, flagged_contribution, age_contribution, status_contribution,
      high_value_contribution, Int.fdiv]
    norm_num

/-- C10: on an empty account list, `calculate_customer_risk` skips the
average-account-risk factor entirely (no division by the account count is
performed and the factor contributes 0): the result is exactly the KYC and
customer-age factors, so the call is total for a customer with zero
accounts. -/
theorem C10_empty_accounts_total (now : Int) (customer : Customer) :
    calculate_customer_risk now customer [] =
      { score := min 100
          ((if customer.kyc_status = KYCStatus.failed then 25
            else if customer.kyc_status = KYCStatus.pending then 15 else 0) +
           (if customer_age_days now customer < 60 then
              15 - (customer_age_days now customer : ℚ) * (1 / 4) else 0))
        factors :=
          (if customer.kyc_status = KYCStatus.failed then ["KYC verification failed"]
           else if customer.kyc_status = KYCStatus.pending then ["KYC verification pending"]
           else []) ++
          (if customer_age_days now customer < 60 then
            ["New customer: " ++ toString (customer_age_days now customer) ++ " days"]
           else [])
        calculated_at := now } := by
  simp [calculate_customer_risk]

/-- Counterexample to C7: `custNew` has failed KYC, yet with an empty account
list `calculate_customer_risk` returns score 40 with two factors, because a
customer younger than 60 days also receives the new-customer factor. -/
theorem C7_counterexample :
    custNew.kyc_status = KYCStatus.failed ∧
    (calculate_customer_risk 0 custNew []).score = 40 ∧
    (calculate_customer_risk 0 custNew []).factors =
      ["KYC verification failed", "New customer: 0 days"] := by
  refine ⟨rfl, ?_, ?_⟩
  · norm_num [calculate_customer_risk, custNew, customer_age_days, Int.fdiv]
  · norm_num [calculate_customer_risk, custNew, customer_age_days, Int.fdiv]
    decide

/-- C7 (amended): for a customer with failed KYC whose computed age is at
least 60 days, `calculate_customer_risk` with an empty account list returns
score 25 and the single factor list. -/
theorem C7_amended (now : Int) (cust : Customer)
    (h1 : cust.kyc_status = KYCStatus.failed)
    (h2 : 60 ≤ customer_age_days now cust) :
    (calculate_customer_risk now cust []).score = 25 ∧
    (calculate_customer_risk now cust []).factors = ["KYC verification failed"] := by
  have hage : ¬ (customer_age_days now cust < 60) := not_lt.mpr h2
  constructor
  · simp [calculate_customer_risk, h1, hage]
    norm_num
  · simp [calculate_customer_risk, h1, hage]

/-- Witness for the amended C7 at a 69-day-old customer with failed KYC. -/
theorem C7_witness :
    custOld.kyc_status = KYCStatus.failed ∧
    60 ≤ customer_age_days 100000 custOld ∧
    (calculate_customer_risk 100000 custOld []).score = 25 ∧
    (calculate_customer_risk 100000 custOld []).factors = ["KYC verification failed"] :=
  ⟨rfl, by decide, (C7_amended 100000 custOld rfl (by decide)).1,
    (C7_amended 100000 custOld rfl (by decide)).2⟩

/-- Linking an account to a ring never touches the `MEMBER_OF`
customer-membership relationships. -/
theorem link_account_preserves_customer_links (st : FraudRingStore)
    (rid aid role : String) :
    (link_account_to_ring st rid aid role).customer_links = st.customer_links := by
  unfold link_account_to_ring
  split <;> rfl

/-- Folding account links over a list of entity ids never touches the
customer-membership relationships. -/
theorem foldl_link_preserves_customer_links (l : List String) (st : FraudRingStore)
    (rid role : String) :
    (l.foldl (fun s e => link_account_to_ring s rid e role) st).customer_links =
      st.customer_links := by
  induction l generalizing st with
  | nil => rfl
  | cons a t ih =>
    rw [List.foldl_cons, ih, link_account_preserves_customer_links]

/-- Saving a ring never touches the customer-membership relationships. -/
theorem save_preserves_customer_links (s : FraudRingStore) (r : FraudRing) :
    (s.save r).customer_links = s.customer_links := by
  unfold FraudRingStore.save
  split <;> rfl

/-- Counterexample to C2: creating a ring from one related entity produces
`member_count = 1`, while the number of distinct customers linked to the ring
in the resulting store is 0 (the entity is linked as an account, and no
customer link is ever created). -/
theorem C2_counterexample :
    (create_fraud_ring_from_pattern ringStoreAcc pat1 ["ACC1"] "R1" 0).1.member_count = 1 ∧
    distinct_linked_customers
      (create_fraud_ring_from_pattern ringStoreAcc pat1 ["ACC1"] "R1" 0).2 "R1" = 0 := by
  exact ⟨rfl, rfl⟩

/-- C2 (amended): `create_fraud_ring_from_pattern` sets the ring's
`member_count` to the length of the `related_entities` list, and links the
entities as accounts: the customer-membership relationships — over which the
distinct-linked-customer count is taken — are left exactly as they were. -/
theorem C2_amended (s : FraudRingStore) (pat : TransactionPattern)
    (related_entities : List String) (fresh_id : String) (now : Int) :
    (create_fraud_ring_from_pattern s pat related_entities fresh_id now).1.member_count =
      related_entities.length ∧
    (create_fraud_ring_from_pattern s pat related_entities fresh_id now).2.customer_links =
      s.customer_links := by
  refine ⟨rfl, ?_⟩
  unfold create_fraud_ring_from_pattern
  simp only []
  rw [foldl_link_preserves_customer_links, save_preserves_customer_links]

/-- Replacing the ring stored under key `rid` makes `find?` return the
replacement, provided some ring with that key was present. -/
theorem find?_replace_ring (l : List FraudRing) (r : FraudRing) (rid : String)
    (hr : r.ring_id = rid)
    (h : (l.find? fun x => decide (x.ring_id = rid)).isSome) :
    ((l.map fun x => if x.ring_id = r.ring_id then r else x).find?
        fun x => decide (x.ring_id = rid)) = some r := by
  induction l with
  | nil => simp at h
  | cons a t ih =>
    by_cases ha : a.ring_id = rid
    · have h1 : (if a.ring_id = r.ring_id then r else a) = r := by
        rw [hr, ha, if_pos rfl]
      have hp : ((fun x => decide (x.ring_id = rid)) r : Bool) = true := by simp [hr]
      rw [List.map_cons, h1]
      exact List.find?_cons_of_pos _ hp
    · have h1 : (if a.ring_id = r.ring_id then r else a) = a := by
        rw [hr]
        exact if_neg ha
      have hp : ¬ ((fun x => decide (x.ring_id = rid)) a : Bool) = true := by simp [ha]
      have hcons : (a :: t).find? (fun x => decide (x.ring_id = rid)) =
          t.find? (fun x => decide (x.ring_id = rid)) :=
        List.find?_cons_of_neg _ hp
      have h2 : (t.find? fun x => decide (x.ring_id = rid)).isSome := by
        rwa [hcons] at h
      have hcons2 : (a :: (t.map fun x => if x.ring_id = r.ring_id then r else x)).find?
            (fun x => decide (x.ring_id = rid)) =
          (t.map fun x => if x.ring_id = r.ring_id then r else x).find?
            (fun x => decide (x.ring_id = rid)) :=
        List.find?_cons_of_neg _ hp
      rw [List.map_cons, h1, hcons2]
      exact ih h2

/-- Saving a ring whose key is already present makes `find_by_id` on that key
return exactly the saved entity. -/
theorem save_find_by_id (s : FraudRingStore) (r : FraudRing)
    (h : (s.find_by_id r.ring_id).isSome) :
    (s.save r).find_by_id r.ring_id = some r := by
  have hany : s.rings.any (fun x => decide (x.ring_id = r.ring_id)) = true := by
    rcases Option.isSome_iff_exists.mp h with ⟨x, hx⟩
    have hmem := List.mem_of_find?_eq_some hx
    have hpx := List.find?_some hx
    exact List.any_eq_true.mpr ⟨x, hmem, hpx⟩
  unfold FraudRingStore.save FraudRingStore.find_by_id
  rw [if_pos hany]
  exact find?_replace_ring s.rings r r.ring_id rfl h

/-- Saving an entity whose key was already bound and reading that key back
yields the saved entity's status. -/
theorem save_then_find_status (s : FraudRingStore) (ring R : FraudRing)
    (rid : String) (h : s.find_by_id rid = some ring) (hRid : R.ring_id = rid) :
    ((s.save R).find_by_id rid).map (fun r => r.status) = some R.status := by
  have hsome : (s.find_by_id R.ring_id).isSome := by
    rw [hRid, h]
    rfl
  have hfind := save_find_by_id s R hsome
  rw [hRid] at hfind
  rw [hfind]
  rfl

/-- Counterexample to C9: the ring `R1` is RESOLVED, yet a subsequent
`update_ring_status` to INVESTIGATING changes its stored status — RESOLVED is
not terminal and the transition RESOLVED → INVESTIGATING (outside the claimed
machine) is carried out. -/
theorem C9_counterexample :
    ringR1.status = FraudRingStatus.resolved ∧
    ((update_ring_status ringStoreResolved "R1" FraudRingStatus.investigating "" 0).2.find_by_id
        "R1").map (fun r => r.status) = some FraudRingStatus.investigating := by
  exact ⟨rfl, rfl⟩

/-- C9 (amended): `update_ring_status` performs no transition validation — for
any ring present in the store, the returned ring and the stored ring both
carry exactly the requested status, whatever the previous status was. -/
theorem C9_amended (s : FraudRingStore) (rid : String) (status : FraudRingStatus)
    (notes : String) (now : Int) (ring : FraudRing)
    (h : s.find_by_id rid = some ring) :
    ((update_ring_status s rid status notes now).1.map (fun r => r.status) = some status) ∧
    (((update_ring_status s rid status notes now).2.find_by_id rid).map (fun r => r.status) =
      some status) := by
  have hrid : ring.ring_id = rid := by
    simpa using List.find?_some h
  unfold update_ring_status
  rw [h]
  refine ⟨rfl, ?_⟩
  exact save_then_find_status s ring _ rid h hrid

/-- Witness for the amended C9: confirming the resolved ring `R1` stores
status CONFIRMED. -/
theorem C9_witness :
    ringStoreResolved.find_by_id "R1" = some ringR1 ∧
    ((update_ring_status ringStoreResolved "R1" FraudRingStatus.confirmed "" 0).2.find_by_id
        "R1").map (fun r => r.status) = some FraudRingStatus.confirmed :=
  ⟨rfl, (C9_amended ringStoreResolved "R1" FraudRingStatus.confirmed "" 0 ringR1 rfl).2⟩

/-- Counterexample to C8: account `M` of `storePair` receives a single
$12,000 inbound and forwards $11,900 within ten hours split over two outbound
transfers, so the claim's conditions (inbound total ≥ 10000, outbound within
48h, retention < 0.10) hold — yet `detect_mule_accounts` does not flag it,
because the query sums over the cartesian (inbound × outbound) match rows
(here total_in = 24000, total_out = 11900, retention ≈ 0.504). -/
theorem C8_counterexample :
    spec_mule_flagged storePair 10000 48 accM = true ∧
    detect_mule_accounts storePair 10000 48 = [] := by
  constructor
  · simp [spec_mule_flagged, storePair, accM, xfer]
    norm_num
  · simp [detect_mule_accounts, mule_rows, storePair, accM, xfer,
      show hours_between 0 600 = 10 from by decide,
      show hours_between 0 601 = 10 from by decide]
    norm_num

/-- The `hours` component of a duration between two instants never exceeds
23: whole elapsed days are carried by the day/month groups, not by the
accessor the mule query compares. -/
theorem hours_component_le (x y : Int) : hours_between x y ≤ 23 := by
  unfold hours_between
  split <;> omega

/-- C8 (amended): `detect_mule_accounts` flags exactly the stored accounts
with at least one (inbound, outbound) match pair whose pair-summed totals —
each inbound amount counted once per paired outbound and vice versa — satisfy
the throughput and retention thresholds.  The `maxHoldHours` restriction does
not bind: the compared `hours` duration component is at most 23, so for any
bound of at least 23 (the service passes 48) the match rows are the full
inbound × outbound cartesian product, whatever the gap or order.  The spec's
single-inflow/single-outflow examples behave as claimed ($12,000 in /
$11,900 out within 10h is flagged, $2,000 out is not), and the same inflow
forwarded after a 60-hour gap is flagged as well. -/
theorem C8_amended (store : GraphStore) (min_throughput : ℚ)
    (max_hold_time_hours : Int) (a : Account) :
    (a ∈ detect_mule_accounts store min_throughput max_hold_time_hours ↔
      a ∈ store.accounts ∧
      mule_rows store max_hold_time_hours a ≠ [] ∧
      min_throughput ≤ ((mule_rows store max_hold_time_hours a).map (fun p => p.1.amount)).sum ∧
      |((mule_rows store max_hold_time_hours a).map (fun p => p.1.amount)).sum -
          ((mule_rows store max_hold_time_hours a).map (fun p => p.2.amount)).sum| /
        ((mule_rows store max_hold_time_hours a).map (fun p => p.1.amount)).sum < 1 / 10) ∧
    (∀ x y : Int, hours_between x y ≤ 23) ∧
    (23 ≤ max_hold_time_hours →
      mule_rows store max_hold_time_hours a =
        store.transactions.flatMap (fun t_in =>
          store.transactions.filterMap (fun t_out =>
            if t_in.to_account_id = some a.account_id ∧
               t_out.from_account_id = some a.account_id
            then some (t_in, t_out) else none))) ∧
    detect_mule_accounts storeEx1 10000 48 = [accM] ∧
    detect_mule_accounts storeEx2 10000 48 = [] ∧
    detect_mule_accounts storeEx3 10000 48 = [accM] := by
  refine ⟨?_, hours_component_le, ?_, ?_, ?_, ?_⟩
  · rw [detect_mule_accounts, List.mem_filter]
    simp [List.isEmpty_iff, and_assoc, ge_iff_le]
  · intro hmax
    have hc : ∀ u v : Int, hours_between u v ≤ max_hold_time_hours :=
      fun u v => le_trans (hours_component_le u v) hmax
    simp [mule_rows, hc]
  · simp [detect_mule_accounts, mule_rows, storeEx1, accM, xfer,
      show hours_between 0 600 = 10 from by decide]
    norm_num
  · simp [detect_mule_accounts, mule_rows, storeEx2, accM, xfer,
      show hours_between 0 600 = 10 from by decide]
    norm_num
  · simp [detect_mule_accounts, mule_rows, storeEx3, accM, xfer,
      show hours_between 0 3600 = 12 from by decide]
    norm_num

/-- Witness for the amended C8: at the service's bound of 48 hours the hold
restriction is discharged and the match rows of the 60-hour-gap store are the
full cartesian product. -/
theorem C8_witness :
    (23 : Int) ≤ 48 ∧
    mule_rows storeEx3 48 accM =
      storeEx3.transactions.flatMap (fun t_in =>
        storeEx3.transactions.filterMap (fun t_out =>
          if t_in.to_account_id = some accM.account_id ∧
             t_out.from_account_id = some accM.account_id
          then some (t_in, t_out) else none)) :=
  ⟨by norm_num,
    (C8_amended storeEx3 10000 48 accM).2.2.1 (by norm_num)⟩

/-- A `filterMap` whose function is a guarded `some` is the `map` over the
`filter` by the guard. -/
theorem filterMap_guard_eq {α β : Type} (p : α → Prop) [DecidablePred p]
    (f : α → β) (l : List α) :
    (l.filterMap fun a => if p a then some (f a) else none) =
      (l.filter fun a => decide (p a)).map f := by
  induction l with
  | nil => rfl
  | cons a t ih =>
    by_cases hp : p a
    · simp [List.filterMap_cons, List.filter_cons, hp, ih]
    · simp [List.filterMap_cons, List.filter_cons, hp, ih]

/-- C6: the fan-out rows are exactly one row per qualifying source account —
the distinct source accounts of the trailing 24-hour window (a duplicate-free
list) whose distinct-recipient count reaches `min_recipients` — and
`detect_fan_out` assigns each row the confidence
`min(0.9, recipient_count / 10)`; in particular a source with exactly 5
distinct recipients gets confidence 0.5 and one with 12 gets 0.9. -/
theorem C6_fan_out (store : GraphStore) (now : Int) (min_recipients : Nat) :
    detect_fan_out_pattern store now min_recipients 24 =
      ((fan_out_sources store now 24).filter
          (fun src => decide (min_recipients ≤ fan_out_recipient_count store now 24 src))).map
        (fun src =>
          { account_id := src
            recipient_count := fan_out_recipient_count store now 24 src
            total_amount := fan_out_total_amount store now 24 src }) ∧
    (fan_out_sources store now 24).Nodup ∧
    (detect_fan_out store now min_recipients).map (fun p => p.confidence) =
      (detect_fan_out_pattern store now min_recipients 24).map
        (fun r => min (9 / 10) ((r.recipient_count : ℚ) / 10)) ∧
    (detect_fan_out storeF5 0 5).map (fun p => p.confidence) = [1 / 2] ∧
    (detect_fan_out storeF12 0 5).map (fun p => p.confidence) = [9 / 10] := by
  refine ⟨?_, ?_, ?_, ?_, ?_⟩
  · rw [detect_fan_out_pattern]
    exact filterMap_guard_eq _ _ _
  · exact List.nodup_dedup _
  · rw [detect_fan_out, List.map_map]
    rfl
  · have h1 : fan_out_sources storeF5 0 24 = ["S"] := by decide
    have h2 : fan_out_recipient_count storeF5 0 24 "S" = 5 := by decide
    simp [detect_fan_out, detect_fan_out_pattern, h1, h2]
    norm_num
  · have h1 : fan_out_sources storeF12 0 24 = ["S"] := by decide
    have h2 : fan_out_recipient_count storeF12 0 24 "S" = 12 := by decide
    simp [detect_fan_out, detect_fan_out_pattern, h1, h2]
    norm_num

/-- Counterexample to C1: a single flagged 3-cycle yields three patterns (one
per rotation of the matched triangle — rotations are not deduplicated), and a
single flagged 4-cycle yields none (the query's traversal is hard-coded to
three hops, so `max_cycle_length = 8` is never honoured). -/
theorem C1_counterexample :
    (detect_circular_flow storeTri 0 3).length = 3 ∧
    (detect_circular_flow storeQuad 0 3).length = 0 := by
  exact ⟨by decide, by decide⟩

/-- C1 (amended): every pattern returned by `detect_circular_flow` arises from
a flagged directed triangle — three stored flagged transactions chaining
through three pairwise-distinct accounts back to the start — with confidence
fixed at 0.8 and the ordered evidence list; only length-3 cycles are ever
matched, and they are reported once per matched rotation, not once per
distinct cycle. -/
theorem C1_amended (store : GraphStore) (now : Int) (min_cycle_length : Nat)
    (p : TransactionPattern)
    (hp : p ∈ detect_circular_flow store now min_cycle_length) :
    p.pattern_type = "circular_flow" ∧ p.confidence = 4 / 5 ∧
    ∃ t1 t2 t3 : Transaction,
      t1 ∈ store.transactions ∧ t2 ∈ store.transactions ∧ t3 ∈ store.transactions ∧
      t1.is_flagged = true ∧ t2.is_flagged = true ∧ t3.is_flagged = true ∧
      t1.to_account_id = t2.from_account_id ∧
      t2.to_account_id = t3.from_account_id ∧
      t3.to_account_id = t1.from_account_id ∧
      t1.from_account_id ≠ t1.to_account_id ∧
      t1.from_account_id ≠ t2.to_account_id ∧
      t1.to_account_id ≠ t2.to_account_id ∧
      p.evidence =
        ["Transaction " ++ t1.transaction_id ++ ": " ++ toString t1.amount,
         "Transaction " ++ t2.transaction_id ++ ": " ++ toString t2.amount,
         "Transaction " ++ t3.transaction_id ++ ": " ++ toString t3.amount] := by
  rw [detect_circular_flow, List.mem_map] at hp
  obtain ⟨cycle, hcyc, hpat⟩ := hp
  rw [find_circular_transactions] at hcyc
  have hcyc2 := List.mem_of_mem_filter hcyc
  have hrows := List.take_subset _ _ hcyc2
  simp only [List.mem_flatMap, List.mem_filterMap] at hrows
  obtain ⟨t1, ht1, t2, ht2, t3, ht3, hif⟩ := hrows
  split at hif
  case isFalse => exact absurd hif (by simp)
  case isTrue hcond =>
    obtain ⟨hf1, hf2, hf3, _, _, _, hl1, hl2, hl3, hd1, hd2, hd3⟩ := hcond
    have hcycle : cycle = [t1, t2, t3] := by
      injection hif with h
      exact h.symm
    subst hcycle
    subst hpat
    exact ⟨rfl, rfl, t1, t2, t3, ht1, ht2, ht3, hf1, hf2, hf3,
      hl1, hl2, hl3, hd1, hd2, hd3, rfl⟩

/-- Witness for the amended C1: the rotation starting at account `A` of the
triangle store is a returned pattern, and the amended properties hold of
it. -/
theorem C1_witness :
    patTri.pattern_type = "circular_flow" ∧ patTri.confidence = 4 / 5 ∧
    ∃ t1 t2 t3 : Transaction,
      t1 ∈ storeTri.transactions ∧ t2 ∈ storeTri.transactions ∧
      t3 ∈ storeTri.transactions ∧
      t1.is_flagged = true ∧ t2.is_flagged = true ∧ t3.is_flagged = true ∧
      t1.to_account_id = t2.from_account_id ∧
      t2.to_account_id = t3.from_account_id ∧
      t3.to_account_id = t1.from_account_id ∧
      t1.from_account_id ≠ t1.to_account_id ∧
      t1.from_account_id ≠ t2.to_account_id ∧
      t1.to_account_id ≠ t2.to_account_id ∧
      patTri.evidence =
        ["Transaction " ++ t1.transaction_id ++ ": " ++ toString t1.amount,
         "Transaction " ++ t2.transaction_id ++ ": " ++ toString t2.amount,
         "Transaction " ++ t3.transaction_id ++ ": " ++ toString t3.amount] := by
  have hcycles : find_circular_transactions storeTri 3 8 =
      [[flaggedTxn "T1" "A" "B", flaggedTxn "T2" "B" "C", flaggedTxn "T3" "C" "A"],
       [flaggedTxn "T2" "B" "C", flaggedTxn "T3" "C" "A", flaggedTxn "T1" "A" "B"],
       [flaggedTxn "T3" "C" "A", flaggedTxn "T1" "A" "B", flaggedTxn "T2" "B" "C"]] := by
    decide
  have hp : patTri ∈ detect_circular_flow storeTri 0 3 := by
    rw [detect_circular_flow, hcycles]
    simp [patTri, flaggedTxn, show toString (100 : ℚ) = "100" from by decide]
  exact C1_amended storeTri 0 3 patTri hp
